import Mathlib

/-!
Clarity prompt-optimizer: shallow embedding and verification.

Shallow embedding of the "Clarity" web client workflow state machine
(`src/App.tsx` together with `src/types.ts`), the thin HTTP client
(`src/services/geminiService.ts`) and the serverless backend handlers
(the two handlers concatenated in `src/unnamed/part_004`:
the Gemini-fetch variant `exports.handler` and the DeepSeek ESM `handler`).

Modelling conventions:
- React `useState` cells become fields of one `AppState` record; an event
  handler becomes a pure function `AppState → AppState` (the sequence of
  `setXxx` calls is the record update).
- An `await`ed upstream call is an oracle value passed in explicitly
  (`Except` for success/failure), since the upstream LLM service is an
  external black box.
- A handler that both mutates state and passes through intermediate
  statuses returns a `GenRun`: the final state, the list of statuses it
  set (in order), and how many upstream calls it issued.
- JS objects used as string maps (`Record<string, string>`) are modelled
  as insertion-ordered association lists with replace-on-update, matching
  `{...prev, [k]: v}` spread semantics; `Object.keys(m).length` is the list
  length (keys are kept distinct by the update function).
- JS truthiness on strings: `!s` is `s = ""`; an absent (`undefined`)
  field is `Option.none`.
-/

namespace Clarity

/-- JS `String.prototype.trim()`, modelled over the character list
(drop leading and trailing whitespace); kept executable by structural
recursion so concrete states evaluate inside proofs. -/
def jsTrim (s : String) : String :=
  String.mk (((s.data.dropWhile Char.isWhitespace).reverse.dropWhile Char.isWhitespace).reverse)

/-- Enum `AppMode` from `src/types.ts`. -/
inductive AppMode where
  | FAST
  | CLARIFY
deriving DecidableEq, Repr

/-- Enum `AppStatus` from `src/types.ts`. -/
inductive AppStatus where
  | IDLE
  | GENERATING_QUESTIONS
  | AWAITING_INPUT
  | GENERATING_RESULT
  | COMPLETED
  | ERROR
deriving DecidableEq, Repr

/-- Interface `QuestionOption` from `src/types.ts`. -/
structure QuestionOption where
  id : String
  label : String
  value : String
deriving DecidableEq, Repr

/-- Interface `ClarificationQuestion` from `src/types.ts`. -/
structure ClarificationQuestion where
  id : String
  text : String
  options : List QuestionOption
deriving DecidableEq, Repr

/-- One `{question, answer}` pair as built by `handleClarificationSubmit`. -/
structure QAPair where
  question : String
  answer : String
deriving DecidableEq, Repr

/-- The answer map `Record<string, string>` as an insertion-ordered
association list. -/
abbrev AnswerMap := List (String × String)

/-- Lookup `answers[qid]`: first (and only) binding for `qid`. -/
def lookupAnswer (m : AnswerMap) (qid : String) : Option String :=
  (m.find? (fun p => p.1 = qid)).map (fun p => p.2)

/-- Update `setAnswers(prev => ({ ...prev, [qid]: v }))`: replace an existing
binding in place, otherwise append (JS object spread keeps insertion
order and overwrites an existing key). -/
def setAnswer (m : AnswerMap) (qid v : String) : AnswerMap :=
  if m.any (fun p => p.1 = qid) then
    m.map (fun p => if p.1 = qid then (qid, v) else p)
  else
    m ++ [(qid, v)]

/-- The `useState` cells of the `App` component (`src/App.tsx`, lines 11-23). -/
structure AppState where
  apiKey : String
  mode : AppMode
  input : String
  status : AppStatus
  error : Option String
  questions : List ClarificationQuestion
  answers : AnswerMap
  result : String
  copied : Bool
deriving DecidableEq, Repr

/-- The initial values of all `useState` cells. -/
def initState : AppState :=
  { apiKey := ""
    mode := AppMode.FAST
    input := ""
    status := AppStatus.IDLE
    error := none
    questions := []
    answers := []
    result := ""
    copied := false }

/-- Result of running an async handler: final state, the statuses passed to
`setStatus` in order, and the number of upstream service calls issued. -/
structure GenRun where
  final : AppState
  statuses : List AppStatus
  calls : Nat
deriving DecidableEq, Repr

/-- Prefix test on character lists (structural, so concrete instances
evaluate inside proofs). -/
def isPrefixChars : List Char → List Char → Bool
  | [], _ => true
  | _ :: _, [] => false
  | p :: ps, c :: cs => p = c && isPrefixChars ps cs

/-- Containment of `pat` as a contiguous sublist of `cs`. -/
def containsChars (cs pat : List Char) : Bool :=
  match cs with
  | [] => isPrefixChars pat []
  | _ :: rest => isPrefixChars pat cs || containsChars rest pat

/-- JS `s.includes(sub)`, modelled over the character lists. -/
def strIncludes (s sub : String) : Bool :=
  containsChars s.data sub.data

/-- The thrown error object seen by a `catch` block: `abort` models an
`AbortError` from a timed-out fetch, `err m?` models an `Error` whose
`message` is `m?` (`none` when `err.message` is `undefined`). -/
inductive JsError where
  | abort
  | err (message : Option String)
deriving DecidableEq, Repr

/-- Message selection of `handleGenerate`'s catch block (`src/App.tsx`, lines 68-75):
`err.message?.includes('API Key') ? "API Key 无效或过期，请检查配置。"
: "出错了，请稍后重试。"`. -/
def generateErrorMessage (e : JsError) : String :=
  let mentionsKey :=
    match e with
    | JsError.abort => false
    | JsError.err none => false
    | JsError.err (some m) => strIncludes m "API Key"
  if mentionsKey then "API Key 无效或过期，请检查配置。" else "出错了，请稍后重试。"

/-- What the two possible `await`ed calls inside `handleGenerate` would
return: `generateFastPrompt` for `FAST` mode, `generateClarificationQuestions`
for `CLARIFY` mode. Only the branch selected by `s.mode` is consulted. -/
structure GenOracle where
  fast : Except JsError String
  clarify : Except JsError (List ClarificationQuestion)

/-- Handler `handleGenerate` (`src/App.tsx`, lines 43-76). Guard: blank input is a
plain `return`; a missing API key sets a local validation message and
returns. Otherwise error/result/copied are cleared, the mode selects the
call sequence, and the awaited outcome drives success or the catch block. -/
def handleGenerate (o : GenOracle) (s : AppState) : GenRun :=
  if jsTrim s.input = "" then ⟨s, [], 0⟩
  else if s.apiKey = "" then
    ⟨{ s with error := some "请先配置 Google API Key" }, [], 0⟩
  else
    let s1 : AppState := { s with error := none, result := "", copied := false }
    match s.mode with
    | AppMode.FAST =>
      let s2 : AppState := { s1 with status := AppStatus.GENERATING_RESULT }
      match o.fast with
      | Except.ok prompt =>
          ⟨{ s2 with result := prompt, status := AppStatus.COMPLETED },
            [AppStatus.GENERATING_RESULT, AppStatus.COMPLETED], 1⟩
      | Except.error e =>
          ⟨{ s2 with error := some (generateErrorMessage e), status := AppStatus.ERROR },
            [AppStatus.GENERATING_RESULT, AppStatus.ERROR], 1⟩
    | AppMode.CLARIFY =>
      let s2 : AppState := { s1 with status := AppStatus.GENERATING_QUESTIONS }
      match o.clarify with
      | Except.ok qs =>
          ⟨{ s2 with questions := qs, status := AppStatus.AWAITING_INPUT },
            [AppStatus.GENERATING_QUESTIONS, AppStatus.AWAITING_INPUT], 1⟩
      | Except.error e =>
          ⟨{ s2 with error := some (generateErrorMessage e), status := AppStatus.ERROR },
            [AppStatus.GENERATING_QUESTIONS, AppStatus.ERROR], 1⟩

/-- Expression `answers[q.id] || q.options[0].value` (`src/App.tsx`, line 89).
JS `||` also falls through on the empty string; `q.options[0].value`
on an empty options list is an out-of-bounds access (a thrown
`TypeError`), modelled as `none`. -/
def fallbackAnswer (answers : AnswerMap) (q : ClarificationQuestion) : Option String :=
  match lookupAnswer answers q.id with
  | some v => if v = "" then (q.options.head?).map (fun opt => opt.value) else some v
  | none => (q.options.head?).map (fun opt => opt.value)

/-- The `qaPairs` built by `handleClarificationSubmit` (`src/App.tsx`,
lines 87-90): `questions.map` with the fallback expression above; `none`
when some question's fallback access throws. -/
def buildQaPairs (questions : List ClarificationQuestion) (answers : AnswerMap) :
    Option (List QAPair) :=
  match questions with
  | [] => some []
  | q :: rest =>
    match fallbackAnswer answers q, buildQaPairs rest answers with
    | some a, some ps => some (⟨q.text, a⟩ :: ps)
    | _, _ => none

/-- Handler `handleClarificationSubmit` (`src/App.tsx`, lines 78-100). The oracle is
what `generateFinalClarifiedPrompt` would return. A thrown `TypeError`
while building `qaPairs` (empty options, no recorded answer) lands in the
same catch block, before any upstream call is made. -/
def handleClarificationSubmit (o : Except JsError String) (s : AppState) : GenRun :=
  if s.apiKey = "" then
    ⟨{ s with error := some "API Key 丢失，请重新配置" }, [], 0⟩
  else
    let s1 : AppState := { s with status := AppStatus.GENERATING_RESULT }
    match buildQaPairs s.questions s.answers with
    | none =>
        ⟨{ s1 with error := some "生成最终指令失败。", status := AppStatus.ERROR },
          [AppStatus.GENERATING_RESULT, AppStatus.ERROR], 0⟩
    | some _ =>
      match o with
      | Except.ok finalPrompt =>
          ⟨{ s1 with result := finalPrompt, status := AppStatus.COMPLETED },
            [AppStatus.GENERATING_RESULT, AppStatus.COMPLETED], 1⟩
      | Except.error _ =>
          ⟨{ s1 with error := some "生成最终指令失败。", status := AppStatus.ERROR },
            [AppStatus.GENERATING_RESULT, AppStatus.ERROR], 1⟩

/-- Handler `handleModeChange` (`src/App.tsx`, lines 30-41). -/
def handleModeChange (newMode : AppMode) (s : AppState) : AppState :=
  if s.status ≠ AppStatus.IDLE ∧ s.status ≠ AppStatus.COMPLETED then s
  else
    let s1 : AppState := { s with mode := newMode, questions := [], answers := [], error := none }
    if s.status = AppStatus.COMPLETED then
      { s1 with status := AppStatus.IDLE, result := "" }
    else s1

/-- Handler `handleReset` (`src/App.tsx`, lines 108-115). -/
def handleReset (s : AppState) : AppState :=
  { s with
    status := AppStatus.IDLE
    result := ""
    questions := []
    answers := []
    error := none
    input := "" }

/-- Handler `copyToClipboard` (`src/App.tsx`, lines 102-106); the delayed
`setCopied(false)` after 2s is a timer outside the event model. -/
def copyToClipboard (s : AppState) : AppState :=
  { s with copied := true }

/-- Flag `isBusy` (`src/App.tsx`, line 127). -/
def isBusy (s : AppState) : Bool :=
  s.status = AppStatus.GENERATING_QUESTIONS ∨ s.status = AppStatus.GENERATING_RESULT

/-! ## UI event layer

The JSX of `src/App.tsx` decides which handler can fire in which state: a
disabled control does not fire its `onClick`, and a section that is not
rendered exposes no controls.  Each user interaction (with the oracle value
its handler would await) is an event; `step` applies the rendering/disabled
guards from the JSX and then the handler. -/

/-- Does the onClick of an option button for `(qid, v)` exist? There is one
button per option of each rendered question (`src/App.tsx`, lines 211-236). -/
def optionButtonExists (questions : List ClarificationQuestion) (qid v : String) : Bool :=
  questions.any (fun q => q.id = qid ∧ q.options.any (fun opt => opt.value = v))

/-- Disabled condition of the submit button (`src/App.tsx`, line 245):
`Object.keys(answers).length < questions.length`. -/
def submitDisabled (s : AppState) : Bool :=
  s.answers.length < s.questions.length

/-- The Generate button is rendered only in `IDLE`, `COMPLETED` or `ERROR`
(`src/App.tsx`, line 183) and disabled when `!input.trim() || !apiKey`
(line 186). -/
def generateClickable (s : AppState) : Bool :=
  (s.status = AppStatus.IDLE ∨ s.status = AppStatus.COMPLETED ∨ s.status = AppStatus.ERROR)
    ∧ ¬(jsTrim s.input = "") ∧ ¬(s.apiKey = "")

/-- A user interaction, carrying the oracle outcome of any call the
corresponding handler awaits. -/
inductive UIEvent where
  /-- Typing in the `ApiKeyConfig` input; the component trims the value and
  calls `onApiKeyChange` (`src/unnamed/part_005`, `handleKeyChange`). -/
  | setApiKey (k : String)
  /-- Typing in the main textarea (`src/App.tsx`, line 165). -/
  | setInput (t : String)
  /-- Clicking a mode in `ModeToggle` (`src/App.tsx`, lines 151-155). -/
  | modeChange (m : AppMode)
  /-- Clicking the Generate button. -/
  | generate (o : GenOracle)
  /-- Clicking the option button for `(qid, v)` in the clarification section. -/
  | answer (qid v : String)
  /-- Clicking the submit button of the clarification section. -/
  | submit (o : Except JsError String)
  /-- Clicking the reset button in the result section. -/
  | reset
  /-- Clicking the copy button in the result section. -/
  | copy

/-- One UI step: the JSX guards decide whether the event reaches its
handler; an unreachable or disabled control leaves the state unchanged. -/
def step (e : UIEvent) (s : AppState) : AppState :=
  match e with
  | UIEvent.setApiKey k => { s with apiKey := jsTrim k }
  | UIEvent.setInput t =>
      -- textarea disabled={isBusy || status === AWAITING_INPUT} (line 166)
      if isBusy s ∨ s.status = AppStatus.AWAITING_INPUT then s
      else { s with input := t }
  | UIEvent.modeChange m =>
      -- ModeToggle's disabled prop repeats the handler's own guard
      handleModeChange m s
  | UIEvent.generate o =>
      if generateClickable s then (handleGenerate o s).final else s
  | UIEvent.answer qid v =>
      -- clarification section rendered iff status === AWAITING_INPUT (line 198)
      if s.status = AppStatus.AWAITING_INPUT ∧ optionButtonExists s.questions qid v then
        { s with answers := setAnswer s.answers qid v }
      else s
  | UIEvent.submit o =>
      if s.status = AppStatus.AWAITING_INPUT ∧ ¬ submitDisabled s then
        (handleClarificationSubmit o s).final
      else s
  | UIEvent.reset =>
      -- result section rendered iff status === COMPLETED && result (line 261)
      if s.status = AppStatus.COMPLETED ∧ s.result ≠ "" then handleReset s else s
  | UIEvent.copy =>
      if s.status = AppStatus.COMPLETED ∧ s.result ≠ "" then copyToClipboard s else s

/-- Run a sequence of UI events from the initial state; the resulting states
are exactly the reachable client states. -/
def run (es : List UIEvent) : AppState :=
  es.foldl (fun s e => step e s) initState

/-! ## Serverless backend handlers

Embedding of the two handlers in `src/unnamed/part_004`: the Gemini
fetch-based `exports.handler` (lines 230-395) and the DeepSeek ESM
`handler` (lines 465-589).  The upstream HTTP exchange is an oracle value;
`JSON.parse` of the upstream text is likewise oracle-supplied (the parsed
value travels next to the raw text), since the text/parse relation lives
outside the handler. -/

/-- A JSON value that may or may not be a string, for the
`typeof input !== 'string'` check. -/
inductive JsonField where
  | str (s : String)
  | nonString
deriving DecidableEq, Repr

/-- Fields of the parsed POST body `{action, input, qaPairs, apiKey}`;
`none` = field absent (`undefined`). -/
structure ReqBody where
  action : Option String
  input : Option JsonField
  qaPairs : Option (List QAPair)
  apiKey : Option String
deriving DecidableEq, Repr

/-- Field `event.body` and what `JSON.parse(event.body)` does to it. -/
inductive EventBody where
  /-- Case where `event.body` is falsy: `if (!event.body) throw ...`. -/
  | missing
  /-- Case present but `JSON.parse` throws a `SyntaxError`; its message is
  modelled by the representative "Unexpected end of JSON input" (real
  `SyntaxError` messages never contain the strings the handlers probe for). -/
  | malformed
  /-- Case present and parsing to `b`. -/
  | parsed (b : ReqBody)
deriving DecidableEq, Repr

/-- The inbound serverless event: `{httpMethod, body}`. -/
structure HEvent where
  httpMethod : String
  body : EventBody
deriving DecidableEq, Repr

/-- The parsed upstream JSON payload, as far as the handlers inspect it:
an object whose `questions` field is a `ClarificationQuestion` array or
absent/not-an-array (`none`). -/
structure ParsedJson where
  questions : Option (List ClarificationQuestion)
deriving DecidableEq, Repr

/-- Outcome of the single upstream fetch a handler performs:
timed out (`AbortError`), non-2xx HTTP status, or a 2xx response whose
extracted candidate text is `text` (`none` = field missing) and whose
`JSON.parse` result is `parsed` (`none` = parse throws). -/
inductive Upstream where
  | timeout
  | httpError (status : Nat)
  | success (text : Option String) (parsed : Option ParsedJson)
deriving DecidableEq, Repr

/-- An HTTP response body as the handlers build it. -/
inductive RespBody where
  /-- Body that is a plain string, e.g. `"Method Not Allowed"`. -/
  | text (s : String)
  /-- Body `JSON.stringify({ message })`. -/
  | jsonMessage (message : String)
  /-- Body `JSON.stringify({ result })`. -/
  | jsonResult (result : String)
  /-- Body `JSON.stringify(responseBody)` for the parsed questions object. -/
  | jsonParsed (p : ParsedJson)
deriving DecidableEq, Repr

/-- A handler's `{statusCode, body}` return value. -/
structure HResp where
  statusCode : Nat
  body : RespBody
deriving DecidableEq, Repr

/-- The three recognised action tags. -/
def knownAction (a : Option String) : Bool :=
  a = some "fast" ∨ a = some "clarify_questions" ∨ a = some "clarify_final"

/-- Check `!input || typeof input !== 'string'` over the optional field. -/
def invalidInput (i : Option JsonField) : Bool :=
  match i with
  | none => true
  | some JsonField.nonString => true
  | some (JsonField.str s) => s = ""

/-- What the `try` block of the Gemini fetch handler throws, or its
successful response.  Thrown errors carry the JS error as `JsError`. -/
def geminiTryBody (b : EventBody) (o : Upstream) : Except JsError HResp :=
  match b with
  | EventBody.missing => Except.error (JsError.err (some "Empty request body"))
  | EventBody.malformed => Except.error (JsError.err (some "Unexpected end of JSON input"))
  | EventBody.parsed body =>
    if body.apiKey.getD "" = "" then
      Except.ok ⟨401, RespBody.jsonMessage "API Key is missing. Please set it in the app settings."⟩
    else if invalidInput body.input then
      Except.ok ⟨400, RespBody.jsonMessage "Invalid input."⟩
    else if ¬ knownAction body.action then
      Except.ok ⟨400, RespBody.jsonMessage "Invalid action."⟩
    else
      match o with
      | Upstream.timeout => Except.error JsError.abort
      | Upstream.httpError status =>
          Except.error (JsError.err (some ("AI Service Error: " ++ toString status)))
      | Upstream.success text parsed =>
        match text with
        | none => Except.error (JsError.err (some "AI returned empty response."))
        | some t =>
          if t = "" then Except.error (JsError.err (some "AI returned empty response."))
          else if body.action = some "clarify_questions" then
            match parsed with
            | none => Except.error (JsError.err (some "Failed to parse AI response."))
            | some p => Except.ok ⟨200, RespBody.jsonParsed p⟩
          else
            Except.ok ⟨200, RespBody.jsonResult (jsTrim t)⟩

/-- The Gemini fetch `exports.handler` of `src/unnamed/part_004`
(lines 230-395): 405 for non-POST, then the `try` body with its catch
(`AbortError` ↦ 504 + "AI Processing Timeout", anything else ↦ 502 with
`error.message || "Internal Server Error"`). -/
def handlerGemini (e : HEvent) (o : Upstream) : HResp :=
  if e.httpMethod ≠ "POST" then ⟨405, RespBody.text "Method Not Allowed"⟩
  else
    match geminiTryBody e.body o with
    | Except.ok r => r
    | Except.error JsError.abort => ⟨504, RespBody.jsonMessage "AI Processing Timeout"⟩
    | Except.error (JsError.err m) =>
        ⟨502, RespBody.jsonMessage (match m with
          | some msg => if msg = "" then "Internal Server Error" else msg
          | none => "Internal Server Error")⟩

/-- Predicate for when `buildMessages` of the DeepSeek handler returns `[]` exactly on an
unknown action; only emptiness is branched on. -/
def deepseekMessagesEmpty (a : Option String) : Bool :=
  ¬ knownAction a

/-- What the `try` block of the DeepSeek `handler` throws or returns.
Differences from the Gemini variant: the upstream error message says
"DeepSeek API Error"/"DeepSeek returned empty content.", the parsed JSON is
additionally validated to contain a `questions` array, and the action check
goes through `buildMessages` returning an empty list. -/
def deepseekTryBody (b : EventBody) (o : Upstream) : Except JsError HResp :=
  match b with
  | EventBody.missing => Except.error (JsError.err (some "Empty request body"))
  | EventBody.malformed => Except.error (JsError.err (some "Unexpected end of JSON input"))
  | EventBody.parsed body =>
    if body.apiKey.getD "" = "" then
      Except.ok ⟨401, RespBody.jsonMessage "API Key is missing. Please set it in the app settings."⟩
    else if invalidInput body.input then
      Except.ok ⟨400, RespBody.jsonMessage "Invalid input."⟩
    else if deepseekMessagesEmpty body.action then
      Except.ok ⟨400, RespBody.jsonMessage "Invalid action."⟩
    else
      match o with
      | Upstream.timeout => Except.error JsError.abort
      | Upstream.httpError status =>
          Except.error (JsError.err (some ("DeepSeek API Error: " ++ toString status)))
      | Upstream.success text parsed =>
        match text with
        | none => Except.error (JsError.err (some "DeepSeek returned empty content."))
        | some t =>
          if t = "" then Except.error (JsError.err (some "DeepSeek returned empty content."))
          else if body.action = some "clarify_questions" then
            match parsed with
            | none => Except.error (JsError.err (some "Failed to parse AI response as JSON."))
            | some p =>
              match p.questions with
              | none =>
                  -- `!responseBody.questions || !Array.isArray(...)` rethrown as parse failure
                  Except.error (JsError.err (some "Failed to parse AI response as JSON."))
              | some _ => Except.ok ⟨200, RespBody.jsonParsed p⟩
          else
            Except.ok ⟨200, RespBody.jsonResult (jsTrim t)⟩

/-- The DeepSeek catch: `isTimeout = AbortError || message.includes("Timed
Out")`, then 504 with a timeout message, else 500 with
`error.message || "Internal Server Error"`. -/
def deepseekCatch (e : JsError) : HResp :=
  let isTimeout :=
    match e with
    | JsError.abort => true
    | JsError.err (some m) => strIncludes m "Timed Out"
    | JsError.err none => false
  if isTimeout then ⟨504, RespBody.jsonMessage "Request timed out (DeepSeek is busy)"⟩
  else
    ⟨500, RespBody.jsonMessage (match e with
      | JsError.err (some msg) => if msg = "" then "Internal Server Error" else msg
      | _ => "Internal Server Error")⟩

/-- The DeepSeek ESM `handler` of `src/unnamed/part_004` (lines 465-589). -/
def handlerDeepseek (e : HEvent) (o : Upstream) : HResp :=
  if e.httpMethod ≠ "POST" then ⟨405, RespBody.text "Method Not Allowed"⟩
  else
    match deepseekTryBody e.body o with
    | Except.ok r => r
    | Except.error err => deepseekCatch err

/-! ## Backend fragment cited by the client-side claims

The backend concatenated into `src/services/geminiService.ts`
(`exports.handler`, fast path, lines 237-256) checks only JS-falsiness of
the extracted candidate text and trims it; the client `geminiService.ts`
maps the response to the value the app awaits. -/

/-- Fast path `if (!resultText) throw "Empty response from AI."` then
`{ result: resultText.trim() }` (geminiService.ts backend, lines 238-255). -/
def fastResponseResult (resultText : Option String) : Except String String :=
  match resultText with
  | none => Except.error "Empty response from AI."
  | some t => if t = "" then Except.error "Empty response from AI." else Except.ok (jsTrim t)

/-- Client `generateClarificationQuestions` returns `data.questions || []`
(`src/services/geminiService.ts`, line 78). -/
def clarifyQuestionsFromData (dataQuestions : Option (List ClarificationQuestion)) :
    List ClarificationQuestion :=
  dataQuestions.getD []

/-- The client's `postToBackend` turns a non-200 `{message}` into a thrown
`Error(message)`; composing it with the backend fast path gives the
outcome `generateFastPrompt` delivers to `handleGenerate`. -/
def clientFastOutcome (resultText : Option String) : Except JsError String :=
  match fastResponseResult resultText with
  | Except.ok r => Except.ok r
  | Except.error m => Except.error (JsError.err (some m))

/-! ## Claim-shaped predicates and spec mirrors -/

/-- Does a response body have the shape `{message: string}`? -/
def isJsonMessage (b : RespBody) : Bool :=
  match b with
  | RespBody.jsonMessage _ => true
  | _ => false

/-- Status classification written from the (amended) spec wording for the
Gemini fetch handler: 405 for non-POST; for a parseable POST body 401 on
missing credential, 400 on missing/non-string/empty input or unknown
action, 504 on upstream timeout and 502 on any other upstream failure;
a missing or unparseable body falls into the 502 catch-all. To be compared
with `handlerGemini`. -/
def specStatusGemini (e : HEvent) (o : Upstream) : Nat :=
  if e.httpMethod ≠ "POST" then 405
  else
    match e.body with
    | EventBody.missing => 502
    | EventBody.malformed => 502
    | EventBody.parsed b =>
      if b.apiKey.getD "" = "" then 401
      else if invalidInput b.input then 400
      else if ¬ knownAction b.action then 400
      else
        match o with
        | Upstream.timeout => 504
        | Upstream.httpError _ => 502
        | Upstream.success text parsed =>
          if text.getD "" = "" then 502
          else if b.action = some "clarify_questions" ∧ parsed = none then 502
          else 200

/-- Status classification written from the (amended) spec wording for the
DeepSeek handler: as for the Gemini variant but with 500 in place of 502,
and a parsed upstream object lacking a `questions` array also counts as a
malformed upstream response. To be compared with `handlerDeepseek`. -/
def specStatusDeepseek (e : HEvent) (o : Upstream) : Nat :=
  if e.httpMethod ≠ "POST" then 405
  else
    match e.body with
    | EventBody.missing => 500
    | EventBody.malformed => 500
    | EventBody.parsed b =>
      if b.apiKey.getD "" = "" then 401
      else if invalidInput b.input then 400
      else if ¬ knownAction b.action then 400
      else
        match o with
        | Upstream.timeout => 504
        | Upstream.httpError _ => 500
        | Upstream.success text parsed =>
          if text.getD "" = "" then 500
          else if b.action = some "clarify_questions"
              ∧ (parsed.bind ParsedJson.questions) = none then 500
          else 200

/-- Claim C5's invariant, in the claim's own shape: every value stored in
the answer map under a question id equals the `value` of one of that
question's options in the current question list. -/
def answersMatchOptions (s : AppState) : Bool :=
  s.answers.all (fun p =>
    s.questions.all (fun q =>
      q.id ≠ p.1 ∨ q.options.any (fun opt => opt.value = p.2)))

/-! ## Concrete data for witnesses and counterexamples -/

/-- A sample question used in concrete runs. -/
def sampleQ1 : ClarificationQuestion := ⟨"q1", "偏好哪种风格?", [⟨"o1", "正式", "formal"⟩]⟩

/-- A second sample question. -/
def sampleQ2 : ClarificationQuestion := ⟨"q2", "目标读者?", [⟨"o1", "大众", "general"⟩]⟩

/-- A question reusing the id of `sampleQ1` but with different options, as a
later clarify run may produce. -/
def sampleQ1' : ClarificationQuestion :=
  ⟨"q1", "偏好哪种语气?", [⟨"o1", "轻松", "casual"⟩]⟩

/-- A question with an empty options list, as the unvalidated upstream JSON
may produce. -/
def sampleQNoOpts : ClarificationQuestion := ⟨"q7", "无选项问题", []⟩

/-- An oracle whose clarify call succeeds with the given question list. -/
def okOracle (qs : List ClarificationQuestion) : GenOracle :=
  { fast := Except.ok "优化后的指令", clarify := Except.ok qs }

/-- A sample state sitting in `AWAITING_INPUT` with one unanswered question. -/
def awaitingState : AppState :=
  { initState with
    apiKey := "k", input := "想法", status := AppStatus.AWAITING_INPUT,
    questions := [sampleQ1] }

/-- Event trace for the C1 counterexample: answer two questions, fail the
final call, re-run clarify from `ERROR`; the two stale answers outnumber
the single fresh question, yet submit is enabled. -/
def c1Trace : List UIEvent :=
  [ UIEvent.setApiKey "k", UIEvent.setInput "想法",
    UIEvent.modeChange AppMode.CLARIFY,
    UIEvent.generate (okOracle [sampleQ1, sampleQ2]),
    UIEvent.answer "q1" "formal", UIEvent.answer "q2" "general",
    UIEvent.submit (Except.error (JsError.err none)),
    UIEvent.generate (okOracle [⟨"q9", "新问题", [⟨"o1", "甲", "a"⟩]⟩]) ]

/-- Event trace for the C3 counterexample: a fast run whose upstream text is
a single space, which the backend does not reject and trims to "". -/
def c3Trace : List UIEvent :=
  [ UIEvent.setApiKey "k", UIEvent.setInput "写一篇文章",
    UIEvent.generate { fast := clientFastOutcome (some " "),
                       clarify := Except.error JsError.abort } ]

/-- Event trace for the C4 counterexample: a clarify run whose upstream
response carries an empty question array. -/
def c4Trace : List UIEvent :=
  [ UIEvent.setApiKey "k", UIEvent.setInput "想法",
    UIEvent.modeChange AppMode.CLARIFY,
    UIEvent.generate { fast := Except.ok "r",
                       clarify := Except.ok (clarifyQuestionsFromData (some [])) } ]

/-- Event trace for the C5 counterexample: answer `sampleQ1`, fail the final
call, re-run clarify; the new list reuses id `q1` with different options,
so the stale stored value matches none of them. -/
def c5Trace : List UIEvent :=
  [ UIEvent.setApiKey "k", UIEvent.setInput "想法",
    UIEvent.modeChange AppMode.CLARIFY,
    UIEvent.generate (okOracle [sampleQ1]),
    UIEvent.answer "q1" "formal",
    UIEvent.submit (Except.error (JsError.err none)),
    UIEvent.generate (okOracle [sampleQ1']) ]

/-! ## Helper lemmas -/

/-- Neither branch of `handleGenerate`'s catch message is the empty string. -/
theorem generateErrorMessage_ne_empty (e : JsError) : generateErrorMessage e ≠ "" := by
  cases e with
  | abort => decide
  | err m =>
    cases m with
    | none => decide
    | some mm =>
      by_cases h : strIncludes mm "API Key" <;> simp [generateErrorMessage, h]

/-- Replacing a present key in the answer map stores exactly `v` under it. -/
theorem lookup_replace (m : AnswerMap) (qid v : String)
    (h : m.any (fun p => p.1 = qid) = true) :
    lookupAnswer (m.map (fun p => if p.1 = qid then (qid, v) else p)) qid = some v := by
  induction m with
  | nil => simp at h
  | cons p rest ih =>
    by_cases hp : p.1 = qid
    · simp [lookupAnswer, hp]
    · have h' : rest.any (fun p => p.1 = qid) = true := by simpa [hp] using h
      simpa [lookupAnswer, hp] using ih h'

/-- Appending a fresh key to the answer map stores exactly `v` under it. -/
theorem lookup_append (m : AnswerMap) (qid v : String)
    (h : m.any (fun p => p.1 = qid) = false) :
    lookupAnswer (m ++ [(qid, v)]) qid = some v := by
  induction m with
  | nil => simp [lookupAnswer]
  | cons p rest ih =>
    have hp : ¬ p.1 = qid := by
      intro hc
      simp [hc] at h
    have h' : rest.any (fun p => p.1 = qid) = false := by
      simpa [hp] using h
    simpa [lookupAnswer, hp] using ih h'

/-- Updating the answer map stores exactly `v` under `qid`. -/
theorem lookupAnswer_setAnswer (m : AnswerMap) (qid v : String) :
    lookupAnswer (setAnswer m qid v) qid = some v := by
  unfold setAnswer
  cases h : m.any (fun p => p.1 = qid) with
  | true => simpa [h] using lookup_replace m qid v h
  | false => simpa [h] using lookup_append m qid v h

/-- A question with at least one option always gets a fallback answer. -/
theorem fallbackAnswer_isSome (ans : AnswerMap) (q : ClarificationQuestion)
    (h : q.options ≠ []) : ∃ a, fallbackAnswer ans q = some a := by
  obtain ⟨o, rest, ho⟩ : ∃ o rest, q.options = o :: rest := by
    cases hq : q.options with
    | nil => exact absurd hq h
    | cons o rest => exact ⟨o, rest, rfl⟩
  unfold fallbackAnswer
  cases hl : lookupAnswer ans q.id with
  | none => exact ⟨o.value, by simp [ho]⟩
  | some v =>
    by_cases hv : v = ""
    · exact ⟨o.value, by simp [ho, hv]⟩
    · exact ⟨v, by simp [hv]⟩

/-! ## Claim C6 -/

/-- C6: Reset, from any state, restores the claimed initial values
(status `Idle`, empty input, empty result, no questions, no answers, no
error), and applying it twice equals applying it once. -/
theorem c6_reset_restores_initial (s : AppState) :
    (handleReset s).status = AppStatus.IDLE ∧ (handleReset s).input = "" ∧
    (handleReset s).result = "" ∧ (handleReset s).questions = [] ∧
    (handleReset s).answers = [] ∧ (handleReset s).error = none ∧
    handleReset (handleReset s) = handleReset s := by
  simp [handleReset]

/-! ## Claim C7 -/

/-- C7: mode change is a no-op unless the status is `Idle` or `Completed`;
when permitted it sets the new mode and clears questions, answers and
error, and from `Completed` it additionally returns to `Idle` and clears
the result. -/
theorem c7_mode_change (s : AppState) (m : AppMode) :
    (s.status ≠ AppStatus.IDLE → s.status ≠ AppStatus.COMPLETED →
      handleModeChange m s = s) ∧
    (s.status = AppStatus.IDLE →
      handleModeChange m s =
        { s with mode := m, questions := [], answers := [], error := none }) ∧
    (s.status = AppStatus.COMPLETED →
      handleModeChange m s =
        { s with mode := m, questions := [], answers := [], error := none,
                 status := AppStatus.IDLE, result := "" }) := by
  refine ⟨fun h1 h2 => ?_, fun h => ?_, fun h => ?_⟩ <;>
    simp [handleModeChange, *]

/-- Witness for C7 at concrete states: a busy state is left unchanged, an
idle state changes mode, a completed state returns to idle. -/
theorem c7_mode_change_witness :
    handleModeChange AppMode.CLARIFY
        { initState with status := AppStatus.GENERATING_RESULT } =
      { initState with status := AppStatus.GENERATING_RESULT } ∧
    handleModeChange AppMode.CLARIFY initState =
      { initState with mode := AppMode.CLARIFY, questions := [], answers := [],
                       error := none } ∧
    handleModeChange AppMode.CLARIFY
        { initState with status := AppStatus.COMPLETED, result := "r" } =
      { initState with mode := AppMode.CLARIFY } :=
  ⟨(c7_mode_change _ _).1 (by decide) (by decide),
   (c7_mode_change _ _).2.1 rfl,
   by simpa using (c7_mode_change
     { initState with status := AppStatus.COMPLETED, result := "r" } AppMode.CLARIFY).2.2 rfl⟩

/-! ## Claim C9 -/

/-- C9: with blank input `handleGenerate` changes nothing, passes through no
status and issues no upstream call; with non-blank input but no configured
credential it only sets the local validation message, again with no status
change and no upstream call. -/
theorem c9_generate_guards (s : AppState) (o : GenOracle) :
    (jsTrim s.input = "" → handleGenerate o s = ⟨s, [], 0⟩) ∧
    (jsTrim s.input ≠ "" → s.apiKey = "" →
      handleGenerate o s =
        ⟨{ s with error := some "请先配置 Google API Key" }, [], 0⟩) := by
  refine ⟨fun h => ?_, fun h1 h2 => ?_⟩ <;> simp [handleGenerate, *]

/-- Witness for C9: the initial state has blank input; a state with input
but no key only gains the validation message. -/
theorem c9_generate_guards_witness :
    handleGenerate (okOracle []) { initState with input := " " } =
      ⟨{ initState with input := " " }, [], 0⟩ ∧
    handleGenerate (okOracle []) { initState with input := "想法" } =
      ⟨{ initState with input := "想法", error := some "请先配置 Google API Key" }, [], 0⟩ :=
  ⟨(c9_generate_guards _ _).1 (by decide),
   (c9_generate_guards _ _).2 (by decide) rfl⟩

/-! ## Claim C8 -/

/-- C8: every failure of a generation call — in `handleGenerate` (either
mode, once its guards pass) or in `handleClarificationSubmit` (including
the synchronous fallback `TypeError`) — ends in status `Error` with a
non-empty user-displayable message, while the input text and the collected
answers are unchanged. -/
theorem c8_failure_to_error (s : AppState) (e : JsError) (o : GenOracle)
    (o' : Except JsError String) :
    (jsTrim s.input ≠ "" → s.apiKey ≠ "" → s.mode = AppMode.FAST →
      o.fast = Except.error e →
      (handleGenerate o s).final.status = AppStatus.ERROR ∧
      (handleGenerate o s).final.error = some (generateErrorMessage e) ∧
      generateErrorMessage e ≠ "" ∧
      (handleGenerate o s).final.input = s.input ∧
      (handleGenerate o s).final.answers = s.answers) ∧
    (jsTrim s.input ≠ "" → s.apiKey ≠ "" → s.mode = AppMode.CLARIFY →
      o.clarify = Except.error e →
      (handleGenerate o s).final.status = AppStatus.ERROR ∧
      (handleGenerate o s).final.error = some (generateErrorMessage e) ∧
      generateErrorMessage e ≠ "" ∧
      (handleGenerate o s).final.input = s.input ∧
      (handleGenerate o s).final.answers = s.answers) ∧
    (s.apiKey ≠ "" →
      (buildQaPairs s.questions s.answers = none ∨ o' = Except.error e) →
      (handleClarificationSubmit o' s).final.status = AppStatus.ERROR ∧
      (handleClarificationSubmit o' s).final.error = some "生成最终指令失败。" ∧
      (handleClarificationSubmit o' s).final.input = s.input ∧
      (handleClarificationSubmit o' s).final.answers = s.answers) := by
  refine ⟨fun h1 h2 h3 h4 => ?_, fun h1 h2 h3 h4 => ?_, fun h1 h2 => ?_⟩
  · simp [handleGenerate, h1, h2, h3, h4, generateErrorMessage_ne_empty]
  · simp [handleGenerate, h1, h2, h3, h4, generateErrorMessage_ne_empty]
  · rcases h2 with h2 | h2
    · simp [handleClarificationSubmit, h1, h2]
    · cases hb : buildQaPairs s.questions s.answers <;>
        simp [handleClarificationSubmit, h1, h2, hb]

/-- Witness for C8 at concrete inputs: a failing fast call, a failing
clarify call, and a failing final call all land in `Error` preserving
input and answers. -/
theorem c8_failure_to_error_witness :
    (handleGenerate { fast := Except.error (JsError.err none), clarify := Except.ok [] }
        { initState with apiKey := "k", input := "想法" }).final.status = AppStatus.ERROR ∧
    (handleGenerate { fast := Except.ok "r", clarify := Except.error (JsError.err none) }
        { initState with apiKey := "k", input := "想法", mode := AppMode.CLARIFY }
      ).final.status = AppStatus.ERROR ∧
    (handleClarificationSubmit (Except.error (JsError.err none))
        { awaitingState with answers := [("q1", "formal")] }).final.status = AppStatus.ERROR ∧
    (handleClarificationSubmit (Except.error (JsError.err none))
        { awaitingState with answers := [("q1", "formal")] }).final.answers
      = [("q1", "formal")] :=
  ⟨((c8_failure_to_error _ (JsError.err none) _ (Except.error (JsError.err none)))
      |>.1 (by decide) (by decide) rfl rfl).1,
   ((c8_failure_to_error _ (JsError.err none) _ (Except.error (JsError.err none)))
      |>.2.1 (by decide) (by decide) rfl rfl).1,
   ((c8_failure_to_error { awaitingState with answers := [("q1", "formal")] }
        (JsError.err none) (okOracle []) _).2.2 (by decide) (Or.inr rfl)).1,
   ((c8_failure_to_error { awaitingState with answers := [("q1", "formal")] }
        (JsError.err none) (okOracle []) _).2.2 (by decide) (Or.inr rfl)).2.2.2⟩

/-! ## Claim C10 -/

/-- C10: if every question has at least one option, `buildQaPairs` is
defined and yields exactly one pair per question; a question with an empty
or unset recorded answer falls back to its first option's value; and a
question with no options and no (or an empty) recorded answer makes the
whole construction fail — the out-of-bounds `q.options[0].value`. -/
theorem c10_qa_pairs (qs : List ClarificationQuestion) (ans : AnswerMap)
    (q : ClarificationQuestion) :
    ((∀ q' ∈ qs, q'.options ≠ []) →
      ∃ ps, buildQaPairs qs ans = some ps ∧ ps.length = qs.length) ∧
    ((lookupAnswer ans q.id = none ∨ lookupAnswer ans q.id = some "") →
      fallbackAnswer ans q = (q.options.head?).map (fun opt => opt.value)) ∧
    (q ∈ qs → q.options = [] →
      (lookupAnswer ans q.id = none ∨ lookupAnswer ans q.id = some "") →
      buildQaPairs qs ans = none) := by
  refine ⟨?_, ?_, ?_⟩
  · intro hall
    induction qs with
    | nil => exact ⟨[], rfl, rfl⟩
    | cons q0 rest ih =>
      obtain ⟨a, ha⟩ := fallbackAnswer_isSome ans q0 (hall q0 (by simp))
      obtain ⟨ps, hps, hlen⟩ := ih (fun q' hq' => hall q' (by simp [hq']))
      exact ⟨⟨q0.text, a⟩ :: ps, by simp [buildQaPairs, ha, hps], by simp [hlen]⟩
  · intro h
    rcases h with h | h <;> simp [fallbackAnswer, h]
  · intro hmem hopts hlook
    have hnone : fallbackAnswer ans q = none := by
      rcases hlook with h | h <;> simp [fallbackAnswer, h, hopts]
    induction qs with
    | nil => simp at hmem
    | cons q0 rest ih =>
      rcases List.mem_cons.mp hmem with h0 | h0
      · subst h0
        simp [buildQaPairs, hnone]
      · cases hf : fallbackAnswer ans q0 <;> simp [buildQaPairs, hf, ih h0]

/-- Witness for C10 at concrete inputs: one answered and one unanswered
question with options build two pairs, the unanswered one taking its first
option's value; a question without options and without an answer makes the
construction fail. -/
theorem c10_qa_pairs_witness :
    buildQaPairs [sampleQ1, sampleQ2] [("q1", "formal")]
      = some [⟨"偏好哪种风格?", "formal"⟩, ⟨"目标读者?", "general"⟩] ∧
    (∃ ps, buildQaPairs [sampleQ1, sampleQ2] [("q1", "formal")] = some ps ∧ ps.length = 2) ∧
    fallbackAnswer [("q1", "formal")] sampleQ2 = some "general" ∧
    buildQaPairs [sampleQ1, sampleQNoOpts] [("q1", "formal")] = none :=
  ⟨by decide,
   (c10_qa_pairs [sampleQ1, sampleQ2] [("q1", "formal")] sampleQNoOpts).1 (by decide),
   by
     have := (c10_qa_pairs [sampleQ1, sampleQ2] [("q1", "formal")] sampleQ2).2.1
       (Or.inl (by decide))
     simpa [sampleQ2] using this,
   (c10_qa_pairs [sampleQ1, sampleQNoOpts] [("q1", "formal")] sampleQNoOpts).2.2
     (by decide) rfl (Or.inl (by decide))⟩

/-! ## Claim C1 -/

/-- C1 (amended): the submit interaction is gated purely by a size
comparison — it leaves the state entirely unchanged whenever the answer
map has fewer entries than there are questions (or the clarification view
is not showing), and it invokes `handleClarificationSubmit` whenever the
answer map has at least as many entries as there are questions. Stale
answers from an earlier run can make the map strictly larger than the
question list, so enabledness does not imply `answers.size ==
questions.size`, nor an answer for every current question. -/
theorem c1_submit_guard (s : AppState) (o : Except JsError String) :
    (s.answers.length < s.questions.length → step (UIEvent.submit o) s = s) ∧
    (s.status ≠ AppStatus.AWAITING_INPUT → step (UIEvent.submit o) s = s) ∧
    (s.status = AppStatus.AWAITING_INPUT → s.questions.length ≤ s.answers.length →
      step (UIEvent.submit o) s = (handleClarificationSubmit o s).final) := by
  refine ⟨fun h => ?_, fun h => ?_, fun h1 h2 => ?_⟩
  · simp [step, submitDisabled, h, Nat.not_le.mpr h]
  · simp [step, h]
  · simp [step, submitDisabled, h1, h2, Nat.not_lt.mpr h2]

/-- Witness for C1's amended theorem at concrete states: submitting with an
unanswered question or outside the clarification view changes nothing;
with all questions answered it runs the final generation. -/
theorem c1_submit_guard_witness :
    step (UIEvent.submit (Except.ok "r")) awaitingState = awaitingState ∧
    step (UIEvent.submit (Except.ok "r")) initState = initState ∧
    step (UIEvent.submit (Except.ok "r"))
        { awaitingState with answers := [("q1", "formal")] }
      = (handleClarificationSubmit (Except.ok "r")
          { awaitingState with answers := [("q1", "formal")] }).final :=
  ⟨(c1_submit_guard _ _).1 (by decide),
   (c1_submit_guard _ _).2.1 (by decide),
   (c1_submit_guard _ _).2.2 (by decide) (by decide)⟩

/-- Counterexample to C1 as stated: a reachable `AwaitingInput` state (the
result of the event trace `c1Trace`) in which submit is enabled although
the answer map is strictly larger than the question list — and pressing
submit is not a no-op. -/
theorem c1_counterexample :
    (run c1Trace).status = AppStatus.AWAITING_INPUT ∧
    submitDisabled (run c1Trace) = false ∧
    (run c1Trace).answers.length ≠ (run c1Trace).questions.length ∧
    step (UIEvent.submit (Except.ok "最终指令")) (run c1Trace) ≠ run c1Trace := by
  decide

/-! ## Claim C3 -/

/-- C3 (amended): a successful fast run from `Idle` passes through
`GeneratingResult` to `Completed`, with the result equal to the trimmed
upstream text; the result is non-empty whenever the trimmed upstream text
is. (The backend rejects only a fully empty upstream text, so a
whitespace-only text reaches `Completed` with an empty result.) -/
theorem c3_fast_run (s : AppState) (o : GenOracle) (u : String) :
    s.status = AppStatus.IDLE → s.mode = AppMode.FAST → jsTrim s.input ≠ "" →
    s.apiKey ≠ "" → u ≠ "" → o.fast = clientFastOutcome (some u) →
    (handleGenerate o s).statuses
        = [AppStatus.GENERATING_RESULT, AppStatus.COMPLETED] ∧
    (handleGenerate o s).final.status = AppStatus.COMPLETED ∧
    (handleGenerate o s).final.result = jsTrim u ∧
    (jsTrim u ≠ "" → (handleGenerate o s).final.result ≠ "") := by
  intro h1 h2 h3 h4 h5 h6
  simp [handleGenerate, clientFastOutcome, fastResponseResult, *]

/-- Witness for C3's amended theorem on a concrete fast run. -/
theorem c3_fast_run_witness :
    (handleGenerate { fast := clientFastOutcome (some "好 "),
                      clarify := Except.error JsError.abort }
        { initState with apiKey := "k", input := "写一篇文章" }).final.result = "好" := by
  have := c3_fast_run { initState with apiKey := "k", input := "写一篇文章" }
    { fast := clientFastOutcome (some "好 "), clarify := Except.error JsError.abort }
    "好 " rfl rfl (by decide) (by decide) (by decide) rfl
  simpa using this.2.2.1

/-- Counterexample to C3 as stated: after the reachable fast run `c3Trace`
whose upstream text is a single space, the state is `Completed` while the
result is the empty string. -/
theorem c3_counterexample :
    (run c3Trace).status = AppStatus.COMPLETED ∧ (run c3Trace).result = "" := by
  decide

/-! ## Claim C4 -/

/-- C4 (amended): a successful clarify run stores exactly the question list
delivered by the service (`data.questions`, or `[]` when that field is
absent) with no size validation, and reaches `AwaitingInput`
unconditionally — also when the list is empty. -/
theorem c4_clarify_run (s : AppState) (o : GenOracle)
    (dq : Option (List ClarificationQuestion)) :
    jsTrim s.input ≠ "" → s.apiKey ≠ "" → s.mode = AppMode.CLARIFY →
    o.clarify = Except.ok (clarifyQuestionsFromData dq) →
    (handleGenerate o s).statuses
        = [AppStatus.GENERATING_QUESTIONS, AppStatus.AWAITING_INPUT] ∧
    (handleGenerate o s).final.status = AppStatus.AWAITING_INPUT ∧
    (handleGenerate o s).final.questions = dq.getD [] := by
  intro h1 h2 h3 h4
  simp [handleGenerate, clarifyQuestionsFromData, *]

/-- Witness for C4's amended theorem on a concrete clarify run delivering a
single question. -/
theorem c4_clarify_run_witness :
    (handleGenerate { fast := Except.ok "r",
                      clarify := Except.ok (clarifyQuestionsFromData (some [sampleQ1])) }
        { initState with apiKey := "k", input := "想法", mode := AppMode.CLARIFY }
      ).final.questions = [sampleQ1] := by
  have := c4_clarify_run
    { initState with apiKey := "k", input := "想法", mode := AppMode.CLARIFY }
    { fast := Except.ok "r",
      clarify := Except.ok (clarifyQuestionsFromData (some [sampleQ1])) }
    (some [sampleQ1]) (by decide) (by decide) rfl rfl
  simpa using this.2.2

/-- Counterexample to C4 as stated: the reachable clarify run `c4Trace`
whose upstream reply carries zero questions both violates the 2–3 size
bound and still reaches `AwaitingInput` with an empty question set. -/
theorem c4_counterexample :
    (run c4Trace).status = AppStatus.AWAITING_INPUT ∧
    (run c4Trace).questions = [] ∧
    ¬ 2 ≤ (run c4Trace).questions.length := by
  decide

/-! ## Claim C5 -/

/-- C5 (amended): an option click outside the current question list's
options is impossible (no such button exists, so the event changes
nothing), and a click on an existing option records exactly that option's
`value` under the question's id. The global invariant fails only because
`handleGenerate` does not clear previously collected answers when a new
question list replaces the old one. -/
theorem c5_answer_guard (s : AppState) (qid v : String) :
    (optionButtonExists s.questions qid v = false → step (UIEvent.answer qid v) s = s) ∧
    (s.status = AppStatus.AWAITING_INPUT → optionButtonExists s.questions qid v = true →
      (step (UIEvent.answer qid v) s).answers = setAnswer s.answers qid v ∧
      lookupAnswer ((step (UIEvent.answer qid v) s).answers) qid = some v) := by
  refine ⟨fun h => ?_, fun h1 h2 => ?_⟩
  · simp [step, h]
  · simp [step, h1, h2, lookupAnswer_setAnswer]

/-- Witness for C5's amended theorem: clicking the option of `sampleQ1`
records its value; clicking a non-existent option changes nothing. -/
theorem c5_answer_guard_witness :
    (step (UIEvent.answer "q1" "formal") awaitingState).answers = [("q1", "formal")] ∧
    step (UIEvent.answer "q1" "casual") awaitingState = awaitingState :=
  ⟨by
    have := (c5_answer_guard awaitingState "q1" "formal").2 rfl (by decide)
    simpa [awaitingState, initState, setAnswer] using this.1,
   (c5_answer_guard _ _ _).1 (by decide)⟩

/-- Counterexample to C5 as stated: in the reachable state after `c5Trace`
the answer map holds `formal` for question id `q1`, but the current
question with id `q1` offers only the option value `casual`. -/
theorem c5_counterexample :
    (run c5Trace).answers = [("q1", "formal")] ∧
    (run c5Trace).questions = [sampleQ1'] ∧
    answersMatchOptions (run c5Trace) = false := by
  decide

/-! ## Claim C2 -/

/-- A prefix of `cs` only uses characters of `cs`. -/
theorem isPrefixChars_subset {pat cs : List Char} (h : isPrefixChars pat cs = true) :
    ∀ c ∈ pat, c ∈ cs := by
  induction pat generalizing cs with
  | nil => simp
  | cons p ps ih =>
    cases cs with
    | nil => simp [isPrefixChars] at h
    | cons c0 cs0 =>
      simp only [isPrefixChars, Bool.and_eq_true, decide_eq_true_eq] at h
      obtain ⟨h1, h2⟩ := h
      intro c hc
      rcases List.mem_cons.mp hc with rfl | hc
      · exact h1 ▸ List.mem_cons_self _ _
      · exact List.mem_cons_of_mem _ (ih h2 c hc)

/-- A contiguous sublist of `cs` only uses characters of `cs`. -/
theorem containsChars_subset {cs pat : List Char} (h : containsChars cs pat = true) :
    ∀ c ∈ pat, c ∈ cs := by
  induction cs with
  | nil =>
    cases pat with
    | nil => simp
    | cons p ps => simp [containsChars, isPrefixChars] at h
  | cons c0 rest ih =>
    simp only [containsChars, Bool.or_eq_true] at h
    rcases h with h | h
    · exact isPrefixChars_subset h
    · exact fun c hc => List.mem_cons_of_mem _ (ih h c hc)

/-- No numeral digit character is the letter `T`. -/
theorem digitChar_ne_T (m : Nat) : Nat.digitChar m ≠ 'T' := by
  rcases Nat.lt_or_ge m 16 with h | h
  · interval_cases m <;> decide
  · unfold Nat.digitChar
    repeat rw [if_neg (by omega)]
    decide

/-- Rendering a numeral never introduces the letter `T`. -/
theorem toDigitsCore_no_T (b f : Nat) : ∀ (n : Nat) (l : List Char),
    'T' ∉ l → 'T' ∉ Nat.toDigitsCore b f n l := by
  induction f with
  | zero =>
    intro n l hl
    simpa [Nat.toDigitsCore] using hl
  | succ f ih =>
    intro n l hl
    have hd : 'T' ∉ Nat.digitChar (n % b) :: l := by
      intro hc
      rcases List.mem_cons.mp hc with hc | hc
      · exact digitChar_ne_T (n % b) hc.symm
      · exact hl hc
    simp only [Nat.toDigitsCore]
    split
    · exact hd
    · exact ih _ _ hd

/-- The decimal representation of a natural number has no letter `T`. -/
theorem repr_no_T (n : Nat) : 'T' ∉ (Nat.repr n).data := by
  have := toDigitsCore_no_T 10 (n + 1) n [] (by simp)
  simpa [Nat.repr, Nat.toDigits, List.asString] using this

/-- The DeepSeek upstream-HTTP error message never matches the timeout
probe, whatever the status code: the probe contains a `T` and the message
consists of `DeepSeek API Error: ` followed by digits. -/
theorem deepseek_httpError_not_timeout (n : Nat) :
    strIncludes ("DeepSeek API Error: " ++ toString n) "Timed Out" = false := by
  by_contra h
  have h' : containsChars ("DeepSeek API Error: " ++ toString n).data
      "Timed Out".data = true := by
    simpa [strIncludes] using Bool.not_eq_false _ |>.mp h
  have hT : 'T' ∈ ("DeepSeek API Error: " ++ toString n).data :=
    containsChars_subset h' 'T' (by decide)
  have hsplit : ("DeepSeek API Error: " ++ toString n).data
      = "DeepSeek API Error: ".data ++ (toString n).data := by
    simp [String.data_append]
  rw [hsplit] at hT
  rcases List.mem_append.mp hT with h1 | h1
  · exact absurd h1 (by decide)
  · exact absurd h1 (repr_no_T n)

/-- Fixed thrown messages never match the DeepSeek timeout probe. -/
theorem fixed_messages_not_timeout :
    strIncludes "Empty request body" "Timed Out" = false ∧
    strIncludes "Unexpected end of JSON input" "Timed Out" = false ∧
    strIncludes "DeepSeek returned empty content." "Timed Out" = false ∧
    strIncludes "Failed to parse AI response as JSON." "Timed Out" = false := by
  decide

/-- C2 (amended): both backend handlers classify every request exactly as
the spec-side status functions say — 405 for non-POST; for a parseable
POST body 401 without credential, 400 on invalid input or action, 504 on
upstream timeout, and 502 (Gemini fetch variant) or 500 (DeepSeek variant)
on any other upstream failure, with a missing or unparseable body falling
into the same 502/500 catch-all rather than 400/401 — and every response
other than a 200 or the plain-text 405 carries a `{message: string}`
body. -/
theorem c2_handler_status (e : HEvent) (o : Upstream) :
    (handlerGemini e o).statusCode = specStatusGemini e o ∧
    (handlerDeepseek e o).statusCode = specStatusDeepseek e o ∧
    ((handlerGemini e o).statusCode = 200 ∨ (handlerGemini e o).statusCode = 405 ∨
      isJsonMessage (handlerGemini e o).body = true) ∧
    ((handlerDeepseek e o).statusCode = 200 ∨ (handlerDeepseek e o).statusCode = 405 ∨
      isJsonMessage (handlerDeepseek e o).body = true) := by
  obtain ⟨m, b⟩ := e
  by_cases hm : m = "POST"
  case neg =>
    simp [handlerGemini, handlerDeepseek, specStatusGemini, specStatusDeepseek, hm,
      isJsonMessage]
  case pos =>
  subst hm
  have hsimp := fixed_messages_not_timeout
  obtain ⟨hf1, hf2, hf3, hf4⟩ := hsimp
  cases b with
  | missing =>
    simp [handlerGemini, handlerDeepseek, geminiTryBody, deepseekTryBody, deepseekCatch,
      specStatusGemini, specStatusDeepseek, isJsonMessage, hf1]
  | malformed =>
    simp [handlerGemini, handlerDeepseek, geminiTryBody, deepseekTryBody, deepseekCatch,
      specStatusGemini, specStatusDeepseek, isJsonMessage, hf2]
  | parsed body =>
    by_cases hk : body.apiKey.getD "" = ""
    · simp [handlerGemini, handlerDeepseek, geminiTryBody, deepseekTryBody,
        specStatusGemini, specStatusDeepseek, isJsonMessage, hk]
    · by_cases hi : invalidInput body.input = true
      · simp [handlerGemini, handlerDeepseek, geminiTryBody, deepseekTryBody,
          specStatusGemini, specStatusDeepseek, isJsonMessage, hk, hi]
      · by_cases ha : knownAction body.action = true
        case neg =>
          simp [handlerGemini, handlerDeepseek, geminiTryBody, deepseekTryBody,
            specStatusGemini, specStatusDeepseek, deepseekMessagesEmpty, isJsonMessage,
            hk, hi, ha]
        case pos =>
        cases o with
        | timeout =>
          simp [handlerGemini, handlerDeepseek, geminiTryBody, deepseekTryBody,
            deepseekCatch, specStatusGemini, specStatusDeepseek, deepseekMessagesEmpty,
            isJsonMessage, hk, hi, ha]
        | httpError st =>
          simp [handlerGemini, handlerDeepseek, geminiTryBody, deepseekTryBody,
            deepseekCatch, specStatusGemini, specStatusDeepseek, deepseekMessagesEmpty,
            isJsonMessage, hk, hi, ha, deepseek_httpError_not_timeout st]
        | success text parsed =>
          cases text with
          | none =>
            simp [handlerGemini, handlerDeepseek, geminiTryBody, deepseekTryBody,
              deepseekCatch, specStatusGemini, specStatusDeepseek, deepseekMessagesEmpty,
              isJsonMessage, hk, hi, ha, hf3]
          | some t =>
            by_cases ht : t = ""
            · simp [handlerGemini, handlerDeepseek, geminiTryBody, deepseekTryBody,
                deepseekCatch, specStatusGemini, specStatusDeepseek, deepseekMessagesEmpty,
                isJsonMessage, hk, hi, ha, ht, hf3]
            · by_cases hc : body.action = some "clarify_questions"
              · have hkq : knownAction (some "clarify_questions") = true := by decide
                cases parsed with
                | none =>
                  simp [handlerGemini, handlerDeepseek, geminiTryBody, deepseekTryBody,
                    deepseekCatch, specStatusGemini, specStatusDeepseek,
                    deepseekMessagesEmpty, isJsonMessage, hk, hi, ha, hkq, ht, hc, hf4]
                | some p =>
                  cases hq : p.questions with
                  | none =>
                    simp [handlerGemini, handlerDeepseek, geminiTryBody, deepseekTryBody,
                      deepseekCatch, specStatusGemini, specStatusDeepseek,
                      deepseekMessagesEmpty, isJsonMessage, hk, hi, ha, hkq, ht, hc, hq, hf4]
                  | some qs =>
                    simp [handlerGemini, handlerDeepseek, geminiTryBody, deepseekTryBody,
                      deepseekCatch, specStatusGemini, specStatusDeepseek,
                      deepseekMessagesEmpty, isJsonMessage, hk, hi, ha, hkq, ht, hc, hq]
              · simp [handlerGemini, handlerDeepseek, geminiTryBody, deepseekTryBody,
                  deepseekCatch, specStatusGemini, specStatusDeepseek,
                  deepseekMessagesEmpty, isJsonMessage, hk, hi, ha, ht, hc]

/-- Counterexample to C2 as stated: a POST request with no body at all —
its credential and input are certainly missing — is answered with the
catch-all 502 (Gemini fetch variant) and 500 (DeepSeek variant), not with
401 or 400; and the 405 response carries a plain-text body, not a
`{message: string}` object. -/
theorem c2_counterexample :
    handlerGemini ⟨"POST", EventBody.missing⟩ Upstream.timeout
      = ⟨502, RespBody.jsonMessage "Empty request body"⟩ ∧
    handlerDeepseek ⟨"POST", EventBody.missing⟩ Upstream.timeout
      = ⟨500, RespBody.jsonMessage "Empty request body"⟩ ∧
    (502 : Nat) ≠ 401 ∧ (502 : Nat) ≠ 400 ∧
    handlerGemini ⟨"GET", EventBody.missing⟩ Upstream.timeout
      = ⟨405, RespBody.text "Method Not Allowed"⟩ ∧
    isJsonMessage (RespBody.text "Method Not Allowed") = false := by
  decide

end Clarity


